import Mathlib

/-!
Verification development for the inline-cache (IC) handler-selection subsystem
of the V8 snapshot under study: `PropertyICCompiler` (ic-compiler.cc) and the
`IC` base class (src/ic/ic.h).

The data model follows the source's view of a shape ("map"): an opaque identity
(`map_id`, standing for the object pointer compared by `*map == ...`), an
instance-type ordinal, an elements kind, and the queryable attribute bits the
dispatch code consults.  Element-layout predicates (`has_fast_elements`,
`has_sloppy_arguments_elements`, `has_fixed_typed_array_elements`,
`has_dictionary_elements`, `IsSloppyArgumentsElements`) are derived from the
elements kind exactly as in the engine's elements-kind taxonomy.
-/

namespace V8IC

/-- Elements-storage kinds.  The six fast kinds, dictionary, the two
sloppy-arguments kinds and the fixed typed-array kinds, as consumed by the
dispatch code under study. -/
inductive ElementsKind where
  | FAST_SMI_ELEMENTS
  | FAST_HOLEY_SMI_ELEMENTS
  | FAST_ELEMENTS
  | FAST_HOLEY_ELEMENTS
  | FAST_DOUBLE_ELEMENTS
  | FAST_HOLEY_DOUBLE_ELEMENTS
  | DICTIONARY_ELEMENTS
  | FAST_SLOPPY_ARGUMENTS_ELEMENTS
  | SLOW_SLOPPY_ARGUMENTS_ELEMENTS
  | UINT8_ELEMENTS
  | INT8_ELEMENTS
  | UINT16_ELEMENTS
  | INT16_ELEMENTS
  | UINT32_ELEMENTS
  | INT32_ELEMENTS
  | FLOAT32_ELEMENTS
  | FLOAT64_ELEMENTS
  | UINT8_CLAMPED_ELEMENTS
deriving DecidableEq, Repr

/-- The fast (packed or holey, smi / object / double) elements kinds. -/
def isFastElementsKind : ElementsKind → Bool
  | .FAST_SMI_ELEMENTS => true
  | .FAST_HOLEY_SMI_ELEMENTS => true
  | .FAST_ELEMENTS => true
  | .FAST_HOLEY_ELEMENTS => true
  | .FAST_DOUBLE_ELEMENTS => true
  | .FAST_HOLEY_DOUBLE_ELEMENTS => true
  | _ => false

/-- The sloppy-arguments elements kinds, as tested by
`IsSloppyArgumentsElements(elements_kind)` in the polymorphic store path. -/
def isSloppyArgumentsElements : ElementsKind → Bool
  | .FAST_SLOPPY_ARGUMENTS_ELEMENTS => true
  | .SLOW_SLOPPY_ARGUMENTS_ELEMENTS => true
  | _ => false

/-- The fixed typed-array elements kinds. -/
def isFixedTypedArrayElementsKind : ElementsKind → Bool
  | .UINT8_ELEMENTS => true
  | .INT8_ELEMENTS => true
  | .UINT16_ELEMENTS => true
  | .INT16_ELEMENTS => true
  | .UINT32_ELEMENTS => true
  | .INT32_ELEMENTS => true
  | .FLOAT32_ELEMENTS => true
  | .FLOAT64_ELEMENTS => true
  | .UINT8_CLAMPED_ELEMENTS => true
  | _ => false

/-- Instance-type ordinal below which maps are string maps
(`IsStringMap()` tests `instance_type() < FIRST_NONSTRING_TYPE`). -/
def FIRST_NONSTRING_TYPE : Nat := 128

/-- Instance-type ordinal of the JS-receiver threshold used by the slow-store
test `instance_type() < FIRST_JS_RECEIVER_TYPE`.  Representative ordinal:
what matters to the code under study is only its order relative to receiver
instance types such as `JS_ARRAY_TYPE`. -/
def FIRST_JS_RECEIVER_TYPE : Nat := 189

/-- Instance type of JS arrays; a JS receiver, hence at or above
`FIRST_JS_RECEIVER_TYPE` and above the string range. -/
def JS_ARRAY_TYPE : Nat := 203

/-- A shape ("map") as the IC dispatch code sees it: an identity (the pointer
compared by `*receiver_map == isolate->get_initial_js_array_map(...)`), an
instance-type ordinal, an elements kind, and the indexed-interceptor bit. -/
structure Map where
  map_id : Nat
  instance_type : Nat
  elements_kind : ElementsKind
  has_indexed_interceptor : Bool
deriving DecidableEq, Repr

/-- `Map::has_fast_elements()`: the elements kind is one of the fast kinds. -/
def Map.has_fast_elements (m : Map) : Bool :=
  isFastElementsKind m.elements_kind

/-- `Map::has_sloppy_arguments_elements()`. -/
def Map.has_sloppy_arguments_elements (m : Map) : Bool :=
  isSloppyArgumentsElements m.elements_kind

/-- `Map::has_fixed_typed_array_elements()`. -/
def Map.has_fixed_typed_array_elements (m : Map) : Bool :=
  isFixedTypedArrayElementsKind m.elements_kind

/-- `Map::has_dictionary_elements()`. -/
def Map.has_dictionary_elements (m : Map) : Bool :=
  decide (m.elements_kind = ElementsKind.DICTIONARY_ELEMENTS)

/-- `Map::IsStringMap()`: instance type below the non-string threshold. -/
def Map.isStringMap (m : Map) : Bool :=
  decide (m.instance_type < FIRST_NONSTRING_TYPE)

/-- The isolate as consumed here: the identity of the canonical initial JS
array map for each elements kind (`get_initial_js_array_map`), and the heap
number map used by `IC::update_receiver_map` for Smi receivers. -/
structure Isolate where
  initial_js_array_map : ElementsKind → Nat
  heap_number_map : Map

/-- The inline-cache states, in their order of specialization. -/
inductive InlineCacheState where
  | UNINITIALIZED
  | PREMONOMORPHIC
  | MONOMORPHIC
  | RECOMPUTE_HANDLER
  | POLYMORPHIC
  | MEGAMORPHIC
  | GENERIC
deriving DecidableEq, Repr

/-- Modelled from the spec: the store-mode enum.  The spec names the four
supported modes (standard, grow-no-transition, ignore-out-of-bounds,
handle-copy-on-write); the 3-bit `ExtraICStateKeyedAccessStoreMode` encoding
declared in src/ic/ic.h admits eight values, including the elements-kind
transition variants that `FindTransitionedMap` serves. -/
inductive KeyedAccessStoreMode where
  | STANDARD_STORE
  | STORE_TRANSITION_TO_OBJECT
  | STORE_TRANSITION_TO_DOUBLE
  | STORE_AND_GROW_NO_TRANSITION
  | STORE_AND_GROW_TRANSITION_TO_OBJECT
  | STORE_AND_GROW_TRANSITION_TO_DOUBLE
  | STORE_NO_TRANSITION_IGNORE_OUT_OF_BOUNDS
  | STORE_NO_TRANSITION_HANDLE_COW
deriving DecidableEq, Repr

/-- Language modes; `STATIC_ASSERT(i::LANGUAGE_END == 3)` in src/ic/ic.h. -/
inductive LanguageMode where
  | SLOPPY
  | STRICT
  | STRONG
deriving DecidableEq, Repr

/-- The keyed-load handlers (stubs) `ComputeKeyedLoadMonomorphicHandler` can
select, with the parameters each stub constructor receives in the source. -/
inductive KeyedLoadHandler where
  | loadIndexedInterceptor
  | loadIndexedString
  | keyedLoadSloppyArguments
  | loadFastElement (is_js_array : Bool) (elements_kind : ElementsKind)
      (convert_hole_to_undefined : Bool)
  | loadDictionaryElement (extra_ic_state : Nat)
deriving DecidableEq, Repr

/-- `PropertyICCompiler::ComputeKeyedLoadMonomorphicHandler` (ic-compiler.cc):
computes `is_js_array`, the elements kind, and the
`convert_hole_to_undefined` bit, then dispatches on the receiver map's
attributes in source order. -/
def computeKeyedLoadMonomorphicHandler (isolate : Isolate) (receiver_map : Map)
    (extra_ic_state : Nat) : KeyedLoadHandler :=
  let is_js_array : Bool := decide (receiver_map.instance_type = JS_ARRAY_TYPE)
  let elements_kind := receiver_map.elements_kind
  let convert_hole_to_undefined : Bool :=
    is_js_array && decide (elements_kind = ElementsKind.FAST_HOLEY_ELEMENTS) &&
      decide (receiver_map.map_id = isolate.initial_js_array_map elements_kind)
  if receiver_map.has_indexed_interceptor then
    KeyedLoadHandler.loadIndexedInterceptor
  else if receiver_map.isStringMap then
    KeyedLoadHandler.loadIndexedString
  else if receiver_map.has_sloppy_arguments_elements then
    KeyedLoadHandler.keyedLoadSloppyArguments
  else if receiver_map.has_fast_elements || receiver_map.has_fixed_typed_array_elements then
    KeyedLoadHandler.loadFastElement is_js_array elements_kind convert_hole_to_undefined
  else
    KeyedLoadHandler.loadDictionaryElement extra_ic_state

/-- The keyed-store handlers (stubs) the store paths can select, with the
parameters each stub constructor receives in the source. -/
inductive KeyedStoreHandler where
  | keyedStoreSloppyArguments (store_mode : KeyedAccessStoreMode)
  | storeFastElement (is_js_array : Bool) (elements_kind : ElementsKind)
      (store_mode : KeyedAccessStoreMode)
  | storeElement (elements_kind : ElementsKind) (store_mode : KeyedAccessStoreMode)
  | elementsTransitionAndStore (kind_before kind_after : ElementsKind)
      (is_js_array : Bool) (store_mode : KeyedAccessStoreMode)
  | keyedStoreICSlow
deriving DecidableEq, Repr

/-- The store-mode condition asserted by the `DCHECK` at the head of both
`ComputeKeyedStoreMonomorphicHandler` and
`ComputeKeyedStorePolymorphicHandlers`. -/
def storeModeSupported (store_mode : KeyedAccessStoreMode) : Bool :=
  decide (store_mode = KeyedAccessStoreMode.STANDARD_STORE) ||
  decide (store_mode = KeyedAccessStoreMode.STORE_AND_GROW_NO_TRANSITION) ||
  decide (store_mode = KeyedAccessStoreMode.STORE_NO_TRANSITION_IGNORE_OUT_OF_BOUNDS) ||
  decide (store_mode = KeyedAccessStoreMode.STORE_NO_TRANSITION_HANDLE_COW)

/-- `PropertyICCompiler::CompileKeyedStoreMonomorphicHandler` (ic-compiler.cc):
sloppy-arguments, then fast / fixed-typed-array, then the generic element
store. -/
def compileKeyedStoreMonomorphicHandler (receiver_map : Map)
    (store_mode : KeyedAccessStoreMode) : KeyedStoreHandler :=
  let elements_kind := receiver_map.elements_kind
  let is_jsarray : Bool := decide (receiver_map.instance_type = JS_ARRAY_TYPE)
  if receiver_map.has_sloppy_arguments_elements then
    KeyedStoreHandler.keyedStoreSloppyArguments store_mode
  else if receiver_map.has_fast_elements || receiver_map.has_fixed_typed_array_elements then
    KeyedStoreHandler.storeFastElement is_jsarray elements_kind store_mode
  else
    KeyedStoreHandler.storeElement elements_kind store_mode

/-- `PropertyICCompiler::ComputeKeyedStoreMonomorphicHandler` (ic-compiler.cc):
the debug assertion on the store mode, then the monomorphic compilation.  The
assertion is modelled by returning `none` when it is violated. -/
def computeKeyedStoreMonomorphicHandler (receiver_map : Map)
    (language_mode : LanguageMode) (store_mode : KeyedAccessStoreMode) :
    Option KeyedStoreHandler :=
  if storeModeSupported store_mode then
    some (compileKeyedStoreMonomorphicHandler receiver_map store_mode)
  else
    none

/-- One iteration of the loop in
`PropertyICCompiler::CompileKeyedStorePolymorphicHandlers` (ic-compiler.cc):
the handler chosen for `receiver_map` and the transitioned map recorded
alongside it.  `find_transitioned` stands for `Map::FindTransitionedMap`,
consumed as an oracle over the candidate list as the source does. -/
def keyedStorePolymorphicEntry (find_transitioned : Map → List Map → Option Map)
    (receiver_maps : List Map) (receiver_map : Map)
    (store_mode : KeyedAccessStoreMode) : KeyedStoreHandler × Option Map :=
  let transitioned_map := find_transitioned receiver_map receiver_maps
  let is_js_array : Bool := decide (receiver_map.instance_type = JS_ARRAY_TYPE)
  let elements_kind := receiver_map.elements_kind
  match transitioned_map with
  | some t =>
      (KeyedStoreHandler.elementsTransitionAndStore elements_kind t.elements_kind
         is_js_array store_mode, some t)
  | none =>
      if decide (receiver_map.instance_type < FIRST_JS_RECEIVER_TYPE) then
        (KeyedStoreHandler.keyedStoreICSlow, none)
      else if isSloppyArgumentsElements elements_kind then
        (KeyedStoreHandler.keyedStoreSloppyArguments store_mode, none)
      else if receiver_map.has_fast_elements || receiver_map.has_fixed_typed_array_elements then
        (KeyedStoreHandler.storeFastElement is_js_array elements_kind store_mode, none)
      else
        (KeyedStoreHandler.storeElement elements_kind store_mode, none)

/-- `PropertyICCompiler::CompileKeyedStorePolymorphicHandlers` (ic-compiler.cc):
for each receiver map, in order, append the chosen handler to `handlers` and
the found transitioned map (or null) to `transitioned_maps`. -/
def compileKeyedStorePolymorphicHandlers
    (find_transitioned : Map → List Map → Option Map) (receiver_maps : List Map)
    (store_mode : KeyedAccessStoreMode) :
    List KeyedStoreHandler × List (Option Map) :=
  (receiver_maps.map fun m =>
     (keyedStorePolymorphicEntry find_transitioned receiver_maps m store_mode).1,
   receiver_maps.map fun m =>
     (keyedStorePolymorphicEntry find_transitioned receiver_maps m store_mode).2)

/-- `PropertyICCompiler::ComputeKeyedStorePolymorphicHandlers` (ic-compiler.cc):
the debug assertion on the store mode, then the polymorphic compilation.  The
assertion is modelled by returning `none` when it is violated. -/
def computeKeyedStorePolymorphicHandlers
    (find_transitioned : Map → List Map → Option Map) (receiver_maps : List Map)
    (store_mode : KeyedAccessStoreMode) (language_mode : LanguageMode) :
    Option (List KeyedStoreHandler × List (Option Map)) :=
  if storeModeSupported store_mode then
    some (compileKeyedStorePolymorphicHandlers find_transitioned receiver_maps store_mode)
  else
    none

/-- The kinds of IC code objects named in src/ic/ic.h. -/
inductive CodeKind where
  | LOAD_IC
  | KEYED_LOAD_IC
  | CALL_IC
  | STORE_IC
  | KEYED_STORE_IC
deriving DecidableEq, Repr

/-- `Code::ComputeFlags(kind, ic_state, extra_state)` as a cache key: the
three components it fingerprints, compared componentwise. -/
structure CodeFlags where
  kind : CodeKind
  ic_state : InlineCacheState
  extra_ic_state : Nat
deriving DecidableEq, Repr

/-- `Code::ComputeFlags`. -/
def computeFlags (kind : CodeKind) (ic_state : InlineCacheState)
    (extra_ic_state : Nat) : CodeFlags :=
  ⟨kind, ic_state, extra_ic_state⟩

/-- A compiled store-IC code object, carrying the flags it was compiled with
(`GetCodeWithFlags`); the megamorphic store code is a deterministic function
of its flags. -/
structure StoreCode where
  flags : CodeFlags
deriving DecidableEq, Repr

/-- The isolate's `non_monomorphic_cache`: a dictionary keyed by code flags. -/
abbrev NonMonomorphicCache := List (CodeFlags × StoreCode)

/-- `UnseededNumberDictionary::FindEntry` on the non-monomorphic cache. -/
def findEntry : NonMonomorphicCache → CodeFlags → Option StoreCode
  | [], _ => none
  | (k, v) :: rest, f => if k = f then some v else findEntry rest f

/-- `PropertyICCompiler::CompileStoreMegamorphic(flags)`: synthesize the
megamorphic store code for the given flags. -/
def compileStoreMegamorphic (flags : CodeFlags) : StoreCode :=
  ⟨flags⟩

/-- `FillCache` (ic-compiler.cc): insert the code under its own flags. -/
def fillCache (cache : NonMonomorphicCache) (code : StoreCode) :
    NonMonomorphicCache :=
  (code.flags, code) :: cache

/-- `PropertyICCompiler::ComputeStore` (ic-compiler.cc): assert the state is
megamorphic (modelled as `none` on violation), look the flags up in the
non-monomorphic cache, and only on a miss compile and fill the cache.
Returns the handler together with the resulting cache contents. -/
def computeStore (cache : NonMonomorphicCache) (ic_state : InlineCacheState)
    (extra_ic_state : Nat) : Option (StoreCode × NonMonomorphicCache) :=
  if ic_state = InlineCacheState.MEGAMORPHIC then
    let flags := computeFlags CodeKind.STORE_IC ic_state extra_ic_state
    match findEntry cache flags with
    | some code => some (code, cache)
    | none =>
        let code := compileStoreMegamorphic flags
        some (code, fillCache cache code)
  else
    none

/-- The state fields of the `IC` base class that `MarkRecomputeHandler` and
`saved_state` touch: `old_state_` and `state_` (src/ic/ic.h). -/
structure ICFeedback where
  old_state : InlineCacheState
  state : InlineCacheState
deriving DecidableEq, Repr

/-- `IC::MarkRecomputeHandler` (src/ic/ic.h): save the current state into
`old_state_` and enter `RECOMPUTE_HANDLER`. -/
def markRecomputeHandler (ic : ICFeedback) : ICFeedback :=
  ⟨ic.state, InlineCacheState.RECOMPUTE_HANDLER⟩

/-- `IC::saved_state` (src/ic/ic.h). -/
def saved_state (ic : ICFeedback) : InlineCacheState :=
  if ic.state = InlineCacheState.RECOMPUTE_HANDLER then ic.old_state else ic.state

/-- `IC::IsCleared` (src/ic/ic.h); both overloads share this body, applied to
the state read from the code object or the feedback nexus. -/
def isCleared (flag_use_ic : Bool) (state : InlineCacheState) : Bool :=
  !flag_use_ic || decide (state = InlineCacheState.UNINITIALIZED) ||
    decide (state = InlineCacheState.PREMONOMORPHIC)

/-- A receiver object as `IC::update_receiver_map` distinguishes it: a small
integer, or a heap object carrying its map. -/
inductive Obj where
  | smi (value : Int)
  | heapObject (map : Map)
deriving DecidableEq, Repr

/-- `IC::update_receiver_map` (src/ic/ic.h): the map recorded for the
receiver. -/
def update_receiver_map (isolate : Isolate) (receiver : Obj) : Map :=
  match receiver with
  | .smi _ => isolate.heap_number_map
  | .heapObject m => m

/-- A sample isolate for concrete evaluations: initial JS array map identity 1
for every elements kind, heap-number map with identity 7. -/
def isolate0 : Isolate :=
  ⟨fun _ => 1, ⟨7, 129, ElementsKind.FAST_ELEMENTS, false⟩⟩

/-- An elements kind that is fast or fixed-typed-array is not a
sloppy-arguments kind. -/
theorem sloppy_false_of_fast_or_typed (k : ElementsKind)
    (h : (isFastElementsKind k || isFixedTypedArrayElementsKind k) = true) :
    isSloppyArgumentsElements k = false := by
  revert h
  cases k <;> decide

/-- An elements kind that is neither sloppy-arguments, nor fast, nor
fixed-typed-array is the dictionary kind. -/
theorem dictionary_of_not_fast_sloppy_typed (k : ElementsKind)
    (hs : isSloppyArgumentsElements k = false)
    (hf : (isFastElementsKind k || isFixedTypedArrayElementsKind k) = false) :
    k = ElementsKind.DICTIONARY_ELEMENTS := by
  revert hs hf
  cases k <;> decide

/-- Claim C1: for a receiver map with fast or fixed-typed-array elements (and
not taken by the earlier interceptor / string-map rules),
`ComputeKeyedLoadMonomorphicHandler` selects the fast-element-load handler,
and its convert-hole-to-undefined parameter is true if and only if the map is
a JS array, its elements kind is the holey kind `FAST_HOLEY_ELEMENTS`, and the
map is the isolate's canonical initial JS-array map for that kind; every other
shape - subclassed (different instance type) or structurally distinct from the
initial map (different identity) - gets the parameter false. -/
theorem keyedLoad_convertHole_iff_canonical_holey_array (isolate : Isolate)
    (m : Map) (extra : Nat)
    (hni : m.has_indexed_interceptor = false)
    (hns : m.isStringMap = false)
    (hfe : (m.has_fast_elements || m.has_fixed_typed_array_elements) = true) :
    computeKeyedLoadMonomorphicHandler isolate m extra =
      KeyedLoadHandler.loadFastElement
        (decide (m.instance_type = JS_ARRAY_TYPE)) m.elements_kind
        (decide (m.instance_type = JS_ARRAY_TYPE) &&
          decide (m.elements_kind = ElementsKind.FAST_HOLEY_ELEMENTS) &&
          decide (m.map_id = isolate.initial_js_array_map m.elements_kind)) ∧
    ((decide (m.instance_type = JS_ARRAY_TYPE) &&
        decide (m.elements_kind = ElementsKind.FAST_HOLEY_ELEMENTS) &&
        decide (m.map_id = isolate.initial_js_array_map m.elements_kind)) = true ↔
      (m.instance_type = JS_ARRAY_TYPE ∧
        m.elements_kind = ElementsKind.FAST_HOLEY_ELEMENTS ∧
        m.map_id = isolate.initial_js_array_map m.elements_kind)) := by
  have hsl : m.has_sloppy_arguments_elements = false :=
    sloppy_false_of_fast_or_typed m.elements_kind hfe
  constructor
  · simp only [computeKeyedLoadMonomorphicHandler, hni, hns, hsl, hfe,
      Bool.false_eq_true, if_false, if_true]
  · simp [Bool.and_eq_true, and_assoc]

/-- Witness for C1: a JS array map with holey fast elements whose identity is
the isolate's initial JS-array map gets the fast-element-load handler with
convert-hole-to-undefined = true. -/
theorem keyedLoad_convertHole_witness :
    computeKeyedLoadMonomorphicHandler isolate0
        ⟨1, 203, ElementsKind.FAST_HOLEY_ELEMENTS, false⟩ 0 =
      KeyedLoadHandler.loadFastElement true ElementsKind.FAST_HOLEY_ELEMENTS true := by
  have h := keyedLoad_convertHole_iff_canonical_holey_array isolate0
    ⟨1, 203, ElementsKind.FAST_HOLEY_ELEMENTS, false⟩ 0
    (by decide) (by decide) (by decide)
  exact h.1

/-- Claim C2: `ComputeKeyedLoadMonomorphicHandler` evaluates its rules in
strict precedence order: indexed interceptor, then string map, then
sloppy-arguments elements, then fast or fixed-typed-array elements, and
otherwise the dictionary-element-load handler parameterized by the load's
extra IC state - and the otherwise case is exactly the dictionary-elements
case, as the source's debug assertion records. -/
theorem keyedLoad_dispatch_precedence (isolate : Isolate) (m : Map)
    (extra : Nat) :
    (m.has_indexed_interceptor = true →
      computeKeyedLoadMonomorphicHandler isolate m extra =
        KeyedLoadHandler.loadIndexedInterceptor) ∧
    (m.has_indexed_interceptor = false → m.isStringMap = true →
      computeKeyedLoadMonomorphicHandler isolate m extra =
        KeyedLoadHandler.loadIndexedString) ∧
    (m.has_indexed_interceptor = false → m.isStringMap = false →
      m.has_sloppy_arguments_elements = true →
      computeKeyedLoadMonomorphicHandler isolate m extra =
        KeyedLoadHandler.keyedLoadSloppyArguments) ∧
    (m.has_indexed_interceptor = false → m.isStringMap = false →
      m.has_sloppy_arguments_elements = false →
      (m.has_fast_elements || m.has_fixed_typed_array_elements) = true →
      computeKeyedLoadMonomorphicHandler isolate m extra =
        KeyedLoadHandler.loadFastElement
          (decide (m.instance_type = JS_ARRAY_TYPE)) m.elements_kind
          (decide (m.instance_type = JS_ARRAY_TYPE) &&
            decide (m.elements_kind = ElementsKind.FAST_HOLEY_ELEMENTS) &&
            decide (m.map_id = isolate.initial_js_array_map m.elements_kind))) ∧
    (m.has_indexed_interceptor = false → m.isStringMap = false →
      m.has_sloppy_arguments_elements = false →
      (m.has_fast_elements || m.has_fixed_typed_array_elements) = false →
      computeKeyedLoadMonomorphicHandler isolate m extra =
        KeyedLoadHandler.loadDictionaryElement extra ∧
        m.has_dictionary_elements = true) := by
  refine ⟨?_, ?_, ?_, ?_, ?_⟩
  · intro h1
    simp only [computeKeyedLoadMonomorphicHandler, h1, if_true]
  · intro h1 h2
    simp only [computeKeyedLoadMonomorphicHandler, h1, h2, Bool.false_eq_true,
      if_false, if_true]
  · intro h1 h2 h3
    simp only [computeKeyedLoadMonomorphicHandler, h1, h2, h3, Bool.false_eq_true,
      if_false, if_true]
  · intro h1 h2 h3 h4
    simp only [computeKeyedLoadMonomorphicHandler, h1, h2, h3, h4,
      Bool.false_eq_true, if_false, if_true]
  · intro h1 h2 h3 h4
    refine ⟨?_, ?_⟩
    · simp only [computeKeyedLoadMonomorphicHandler, h1, h2, h3, h4,
        Bool.false_eq_true, if_false]
    · have hk := dictionary_of_not_fast_sloppy_typed m.elements_kind
        (by simpa [Map.has_sloppy_arguments_elements] using h3)
        (by simpa [Map.has_fast_elements, Map.has_fixed_typed_array_elements] using h4)
      simp [Map.has_dictionary_elements, hk]

/-- Witness for C2: one concrete map per dispatch rule, with every earlier
rule's condition discharged concretely. -/
theorem keyedLoad_dispatch_precedence_witness :
    computeKeyedLoadMonomorphicHandler isolate0
        ⟨2, 203, ElementsKind.FAST_ELEMENTS, true⟩ 0 =
      KeyedLoadHandler.loadIndexedInterceptor ∧
    computeKeyedLoadMonomorphicHandler isolate0
        ⟨3, 5, ElementsKind.FAST_ELEMENTS, false⟩ 0 =
      KeyedLoadHandler.loadIndexedString ∧
    computeKeyedLoadMonomorphicHandler isolate0
        ⟨4, 200, ElementsKind.FAST_SLOPPY_ARGUMENTS_ELEMENTS, false⟩ 0 =
      KeyedLoadHandler.keyedLoadSloppyArguments ∧
    computeKeyedLoadMonomorphicHandler isolate0
        ⟨5, 200, ElementsKind.UINT8_ELEMENTS, false⟩ 0 =
      KeyedLoadHandler.loadFastElement false ElementsKind.UINT8_ELEMENTS false ∧
    computeKeyedLoadMonomorphicHandler isolate0
        ⟨6, 200, ElementsKind.DICTIONARY_ELEMENTS, false⟩ 9 =
      KeyedLoadHandler.loadDictionaryElement 9 := by
  refine ⟨?_, ?_, ?_, ?_, ?_⟩
  · exact (keyedLoad_dispatch_precedence isolate0
      ⟨2, 203, ElementsKind.FAST_ELEMENTS, true⟩ 0).1 (by decide)
  · exact (keyedLoad_dispatch_precedence isolate0
      ⟨3, 5, ElementsKind.FAST_ELEMENTS, false⟩ 0).2.1 (by decide) (by decide)
  · exact (keyedLoad_dispatch_precedence isolate0
      ⟨4, 200, ElementsKind.FAST_SLOPPY_ARGUMENTS_ELEMENTS, false⟩ 0).2.2.1
      (by decide) (by decide) (by decide)
  · exact (keyedLoad_dispatch_precedence isolate0
      ⟨5, 200, ElementsKind.UINT8_ELEMENTS, false⟩ 0).2.2.2.1
      (by decide) (by decide) (by decide) (by decide)
  · exact ((keyedLoad_dispatch_precedence isolate0
      ⟨6, 200, ElementsKind.DICTIONARY_ELEMENTS, false⟩ 9).2.2.2.2
      (by decide) (by decide) (by decide) (by decide)).1

/-- The transitioned-map component of a polymorphic store entry is exactly
what `FindTransitionedMap` returned for that receiver map. -/
theorem keyedStorePolymorphicEntry_snd
    (find_transitioned : Map → List Map → Option Map) (receiver_maps : List Map)
    (m : Map) (store_mode : KeyedAccessStoreMode) :
    (keyedStorePolymorphicEntry find_transitioned receiver_maps m store_mode).2 =
      find_transitioned m receiver_maps := by
  unfold keyedStorePolymorphicEntry
  cases h : find_transitioned m receiver_maps
  · simp only [h]
    split
    · rfl
    · split
      · rfl
      · split
        · rfl
        · rfl
  · simp only [h]

/-- Claim C3: for every receiver map in the input list of the polymorphic
keyed-store computation, the entry recorded for it follows this precedence:
a transitioned map found among the candidates selects the
elements-transition-and-store handler parameterized by (pre-kind, post-kind,
is-JS-array, store mode); otherwise an instance type below the JS-receiver
threshold selects the shared slow keyed-store handler; otherwise the
sloppy-arguments, fast-element, or generic element (dictionary) store handler
is selected by the map's elements kind, in that order. -/
theorem keyedStorePolymorphic_selection
    (find_transitioned : Map → List Map → Option Map) (receiver_maps : List Map)
    (m : Map) (store_mode : KeyedAccessStoreMode) (hmem : m ∈ receiver_maps) :
    (∀ t, find_transitioned m receiver_maps = some t →
      keyedStorePolymorphicEntry find_transitioned receiver_maps m store_mode =
        (KeyedStoreHandler.elementsTransitionAndStore m.elements_kind
           t.elements_kind (decide (m.instance_type = JS_ARRAY_TYPE)) store_mode,
         some t)) ∧
    (find_transitioned m receiver_maps = none →
      m.instance_type < FIRST_JS_RECEIVER_TYPE →
      keyedStorePolymorphicEntry find_transitioned receiver_maps m store_mode =
        (KeyedStoreHandler.keyedStoreICSlow, none)) ∧
    (find_transitioned m receiver_maps = none →
      ¬ m.instance_type < FIRST_JS_RECEIVER_TYPE →
      isSloppyArgumentsElements m.elements_kind = true →
      keyedStorePolymorphicEntry find_transitioned receiver_maps m store_mode =
        (KeyedStoreHandler.keyedStoreSloppyArguments store_mode, none)) ∧
    (find_transitioned m receiver_maps = none →
      ¬ m.instance_type < FIRST_JS_RECEIVER_TYPE →
      isSloppyArgumentsElements m.elements_kind = false →
      (m.has_fast_elements || m.has_fixed_typed_array_elements) = true →
      keyedStorePolymorphicEntry find_transitioned receiver_maps m store_mode =
        (KeyedStoreHandler.storeFastElement
           (decide (m.instance_type = JS_ARRAY_TYPE)) m.elements_kind store_mode,
         none)) ∧
    (find_transitioned m receiver_maps = none →
      ¬ m.instance_type < FIRST_JS_RECEIVER_TYPE →
      isSloppyArgumentsElements m.elements_kind = false →
      (m.has_fast_elements || m.has_fixed_typed_array_elements) = false →
      keyedStorePolymorphicEntry find_transitioned receiver_maps m store_mode =
        (KeyedStoreHandler.storeElement m.elements_kind store_mode, none) ∧
        m.elements_kind = ElementsKind.DICTIONARY_ELEMENTS) := by
  refine ⟨?_, ?_, ?_, ?_, ?_⟩
  · intro t ht
    simp only [keyedStorePolymorphicEntry, ht]
  · intro hn hlt
    simp only [keyedStorePolymorphicEntry, hn, hlt, decide_True, if_true]
  · intro hn hge hsl
    simp only [keyedStorePolymorphicEntry, hn, hge, decide_False, hsl,
      Bool.false_eq_true, if_false, if_true]
  · intro hn hge hsl hfe
    simp only [keyedStorePolymorphicEntry, hn, hge, decide_False, hsl, hfe,
      Bool.false_eq_true, if_false, if_true]
  · intro hn hge hsl hfe
    refine ⟨?_, ?_⟩
    · simp only [keyedStorePolymorphicEntry, hn, hge, decide_False, hsl, hfe,
        Bool.false_eq_true, if_false]
    · exact dictionary_of_not_fast_sloppy_typed m.elements_kind hsl
        (by simpa [Map.has_fast_elements, Map.has_fixed_typed_array_elements]
          using hfe)

/-- Witness for C3: a two-map candidate list in which the first map (holey smi
array) has the second (holey object array) as its transitioned map, so it gets
the elements-transition-and-store handler; the second map, with no further
transition, gets the fast-element store handler. -/
theorem keyedStorePolymorphic_selection_witness :
    keyedStorePolymorphicEntry
        (fun m _ =>
          if m.elements_kind = ElementsKind.FAST_HOLEY_SMI_ELEMENTS then
            some ⟨11, 203, ElementsKind.FAST_HOLEY_ELEMENTS, false⟩
          else none)
        [⟨10, 203, ElementsKind.FAST_HOLEY_SMI_ELEMENTS, false⟩,
         ⟨11, 203, ElementsKind.FAST_HOLEY_ELEMENTS, false⟩]
        ⟨10, 203, ElementsKind.FAST_HOLEY_SMI_ELEMENTS, false⟩
        KeyedAccessStoreMode.STANDARD_STORE =
      (KeyedStoreHandler.elementsTransitionAndStore
         ElementsKind.FAST_HOLEY_SMI_ELEMENTS ElementsKind.FAST_HOLEY_ELEMENTS
         true KeyedAccessStoreMode.STANDARD_STORE,
       some ⟨11, 203, ElementsKind.FAST_HOLEY_ELEMENTS, false⟩) ∧
    keyedStorePolymorphicEntry
        (fun m _ =>
          if m.elements_kind = ElementsKind.FAST_HOLEY_SMI_ELEMENTS then
            some ⟨11, 203, ElementsKind.FAST_HOLEY_ELEMENTS, false⟩
          else none)
        [⟨10, 203, ElementsKind.FAST_HOLEY_SMI_ELEMENTS, false⟩,
         ⟨11, 203, ElementsKind.FAST_HOLEY_ELEMENTS, false⟩]
        ⟨11, 203, ElementsKind.FAST_HOLEY_ELEMENTS, false⟩
        KeyedAccessStoreMode.STANDARD_STORE =
      (KeyedStoreHandler.storeFastElement true ElementsKind.FAST_HOLEY_ELEMENTS
         KeyedAccessStoreMode.STANDARD_STORE, none) := by
  refine ⟨?_, ?_⟩
  · exact (keyedStorePolymorphic_selection
      (fun m _ =>
        if m.elements_kind = ElementsKind.FAST_HOLEY_SMI_ELEMENTS then
          some ⟨11, 203, ElementsKind.FAST_HOLEY_ELEMENTS, false⟩
        else none)
      [⟨10, 203, ElementsKind.FAST_HOLEY_SMI_ELEMENTS, false⟩,
       ⟨11, 203, ElementsKind.FAST_HOLEY_ELEMENTS, false⟩]
      ⟨10, 203, ElementsKind.FAST_HOLEY_SMI_ELEMENTS, false⟩
      KeyedAccessStoreMode.STANDARD_STORE (by simp)).1
      ⟨11, 203, ElementsKind.FAST_HOLEY_ELEMENTS, false⟩ (by decide)
  · exact (keyedStorePolymorphic_selection
      (fun m _ =>
        if m.elements_kind = ElementsKind.FAST_HOLEY_SMI_ELEMENTS then
          some ⟨11, 203, ElementsKind.FAST_HOLEY_ELEMENTS, false⟩
        else none)
      [⟨10, 203, ElementsKind.FAST_HOLEY_SMI_ELEMENTS, false⟩,
       ⟨11, 203, ElementsKind.FAST_HOLEY_ELEMENTS, false⟩]
      ⟨11, 203, ElementsKind.FAST_HOLEY_ELEMENTS, false⟩
      KeyedAccessStoreMode.STANDARD_STORE (by simp)).2.2.2.1
      (by decide) (by decide) (by decide) (by decide)

/-- Claim C5: the polymorphic keyed-store computation keeps its two output
lists parallel to the input list: both have the input's length, the handler
at position i is the one selected for the receiver map at position i, and
the transitioned-map entry at position i is the transitioned map found for
the receiver map at position i (or none when no transition applies). -/
theorem keyedStorePolymorphic_parallel_lists
    (find_transitioned : Map → List Map → Option Map) (receiver_maps : List Map)
    (store_mode : KeyedAccessStoreMode) :
    (compileKeyedStorePolymorphicHandlers find_transitioned receiver_maps
        store_mode).1.length = receiver_maps.length ∧
    (compileKeyedStorePolymorphicHandlers find_transitioned receiver_maps
        store_mode).2.length = receiver_maps.length ∧
    (∀ i : Nat,
      (compileKeyedStorePolymorphicHandlers find_transitioned receiver_maps
          store_mode).1.get? i =
        (receiver_maps.get? i).map fun m =>
          (keyedStorePolymorphicEntry find_transitioned receiver_maps m
             store_mode).1) ∧
    (∀ i : Nat,
      (compileKeyedStorePolymorphicHandlers find_transitioned receiver_maps
          store_mode).2.get? i =
        (receiver_maps.get? i).map fun m =>
          find_transitioned m receiver_maps) := by
  refine ⟨?_, ?_, ?_, ?_⟩
  · simp [compileKeyedStorePolymorphicHandlers]
  · simp [compileKeyedStorePolymorphicHandlers]
  · intro i
    simp [compileKeyedStorePolymorphicHandlers, List.get?_map]
  · intro i
    simp only [compileKeyedStorePolymorphicHandlers, List.get?_map]
    cases receiver_maps.get? i
    · rfl
    · simp [keyedStorePolymorphicEntry_snd]

/-- Looking a code object up in a cache just filled with it under its own
flags succeeds. -/
theorem findEntry_fillCache (cache : NonMonomorphicCache) (code : StoreCode) :
    findEntry (fillCache cache code) code.flags = some code := by
  simp [fillCache, findEntry]

/-- `ComputeStore` on a cache hit returns the cached code and leaves the
cache unchanged. -/
theorem computeStore_found (cache : NonMonomorphicCache) (extra_ic_state : Nat)
    (code : StoreCode)
    (h : findEntry cache (computeFlags CodeKind.STORE_IC
      InlineCacheState.MEGAMORPHIC extra_ic_state) = some code) :
    computeStore cache InlineCacheState.MEGAMORPHIC extra_ic_state =
      some (code, cache) := by
  unfold computeStore
  simp [h]

/-- `ComputeStore` on a cache miss compiles the megamorphic store code for
the computed flags and fills the cache with it. -/
theorem computeStore_miss (cache : NonMonomorphicCache) (extra_ic_state : Nat)
    (h : findEntry cache (computeFlags CodeKind.STORE_IC
      InlineCacheState.MEGAMORPHIC extra_ic_state) = none) :
    computeStore cache InlineCacheState.MEGAMORPHIC extra_ic_state =
      some (compileStoreMegamorphic (computeFlags CodeKind.STORE_IC
              InlineCacheState.MEGAMORPHIC extra_ic_state),
            fillCache cache (compileStoreMegamorphic (computeFlags
              CodeKind.STORE_IC InlineCacheState.MEGAMORPHIC extra_ic_state))) := by
  unfold computeStore
  simp [h]

/-- Claim C4: computing the megamorphic store handler is idempotent.  A first
call to `ComputeStore` in the megamorphic state yields a handler and a cache
on which a second call with the same extra-state flags returns the same
handler and leaves the cache unchanged; a call whose flags are already cached
returns the cached code without recompiling; a handler is synthesized and
inserted only when no entry for those flags exists. -/
theorem computeStore_megamorphic_idempotent (cache : NonMonomorphicCache)
    (extra_ic_state : Nat) :
    (∀ code cache₂,
      computeStore cache InlineCacheState.MEGAMORPHIC extra_ic_state =
        some (code, cache₂) →
      computeStore cache₂ InlineCacheState.MEGAMORPHIC extra_ic_state =
        some (code, cache₂)) ∧
    (∀ code,
      findEntry cache (computeFlags CodeKind.STORE_IC
        InlineCacheState.MEGAMORPHIC extra_ic_state) = some code →
      computeStore cache InlineCacheState.MEGAMORPHIC extra_ic_state =
        some (code, cache)) ∧
    (findEntry cache (computeFlags CodeKind.STORE_IC
        InlineCacheState.MEGAMORPHIC extra_ic_state) = none →
      computeStore cache InlineCacheState.MEGAMORPHIC extra_ic_state =
        some (compileStoreMegamorphic (computeFlags CodeKind.STORE_IC
                InlineCacheState.MEGAMORPHIC extra_ic_state),
              fillCache cache (compileStoreMegamorphic (computeFlags
                CodeKind.STORE_IC InlineCacheState.MEGAMORPHIC extra_ic_state)))) := by
  refine ⟨?_, ?_, ?_⟩
  · intro code cache₂ h
    cases hf : findEntry cache (computeFlags CodeKind.STORE_IC
        InlineCacheState.MEGAMORPHIC extra_ic_state) with
    | some c =>
        have h₂ := (computeStore_found cache extra_ic_state c hf).symm.trans h
        injection h₂ with h₃
        injection h₃ with hcode hcache
        subst hcode hcache
        exact computeStore_found cache extra_ic_state c hf
    | none =>
        have h₂ := (computeStore_miss cache extra_ic_state hf).symm.trans h
        injection h₂ with h₃
        injection h₃ with hcode hcache
        subst hcode hcache
        exact computeStore_found _ extra_ic_state _
          (findEntry_fillCache cache (compileStoreMegamorphic (computeFlags
            CodeKind.STORE_IC InlineCacheState.MEGAMORPHIC extra_ic_state)))
  · intro code h
    exact computeStore_found cache extra_ic_state code h
  · intro h
    exact computeStore_miss cache extra_ic_state h

/-- Witness for C4: starting from the empty cache, the first megamorphic
store computation compiles and caches a handler, and repeating the call on
the resulting cache returns the same handler with the cache unchanged. -/
theorem computeStore_megamorphic_idempotent_witness :
    computeStore [] InlineCacheState.MEGAMORPHIC 5 =
      some (⟨⟨CodeKind.STORE_IC, InlineCacheState.MEGAMORPHIC, 5⟩⟩,
            [(⟨CodeKind.STORE_IC, InlineCacheState.MEGAMORPHIC, 5⟩,
              ⟨⟨CodeKind.STORE_IC, InlineCacheState.MEGAMORPHIC, 5⟩⟩)]) ∧
    computeStore
        [(⟨CodeKind.STORE_IC, InlineCacheState.MEGAMORPHIC, 5⟩,
          ⟨⟨CodeKind.STORE_IC, InlineCacheState.MEGAMORPHIC, 5⟩⟩)]
        InlineCacheState.MEGAMORPHIC 5 =
      some (⟨⟨CodeKind.STORE_IC, InlineCacheState.MEGAMORPHIC, 5⟩⟩,
            [(⟨CodeKind.STORE_IC, InlineCacheState.MEGAMORPHIC, 5⟩,
              ⟨⟨CodeKind.STORE_IC, InlineCacheState.MEGAMORPHIC, 5⟩⟩)]) := by
  refine ⟨by decide, ?_⟩
  exact (computeStore_megamorphic_idempotent [] 5).1
    ⟨⟨CodeKind.STORE_IC, InlineCacheState.MEGAMORPHIC, 5⟩⟩
    [(⟨CodeKind.STORE_IC, InlineCacheState.MEGAMORPHIC, 5⟩,
      ⟨⟨CodeKind.STORE_IC, InlineCacheState.MEGAMORPHIC, 5⟩⟩)] (by decide)

/-- Claim C6: for every receiver map with fast elements and every supported
store mode, the monomorphic keyed-store computation selects the fast-element
store handler parameterized with exactly the requested store mode. -/
theorem keyedStoreMonomorphic_mode_exact (m : Map)
    (language_mode : LanguageMode) (store_mode : KeyedAccessStoreMode)
    (hfe : m.has_fast_elements = true)
    (hmode : storeModeSupported store_mode = true) :
    computeKeyedStoreMonomorphicHandler m language_mode store_mode =
      some (KeyedStoreHandler.storeFastElement
        (decide (m.instance_type = JS_ARRAY_TYPE)) m.elements_kind store_mode) := by
  have hsl : m.has_sloppy_arguments_elements = false := by
    apply sloppy_false_of_fast_or_typed m.elements_kind
    simp only [Map.has_fast_elements] at hfe
    simp [hfe]
  have hor : (m.has_fast_elements || m.has_fixed_typed_array_elements) = true := by
    simp [hfe]
  simp only [computeKeyedStoreMonomorphicHandler, hmode, if_true,
    compileKeyedStoreMonomorphicHandler, hsl, hor, Bool.false_eq_true, if_false]

/-- Witness for C6: a packed fast JS array stored to with
`STORE_AND_GROW_NO_TRANSITION` gets the fast-element store handler carrying
that exact mode, not `STANDARD_STORE`. -/
theorem keyedStoreMonomorphic_mode_exact_witness :
    computeKeyedStoreMonomorphicHandler
        ⟨1, 203, ElementsKind.FAST_ELEMENTS, false⟩ LanguageMode.SLOPPY
        KeyedAccessStoreMode.STORE_AND_GROW_NO_TRANSITION =
      some (KeyedStoreHandler.storeFastElement true ElementsKind.FAST_ELEMENTS
        KeyedAccessStoreMode.STORE_AND_GROW_NO_TRANSITION) :=
  keyedStoreMonomorphic_mode_exact
    ⟨1, 203, ElementsKind.FAST_ELEMENTS, false⟩ LanguageMode.SLOPPY
    KeyedAccessStoreMode.STORE_AND_GROW_NO_TRANSITION (by decide) (by decide)

/-- Claim C7: `MarkRecomputeHandler` enters `RECOMPUTE_HANDLER` while
preserving the prior state: afterwards `saved_state` returns exactly the
state held before the call; and on an IC not in `RECOMPUTE_HANDLER`,
`saved_state` returns the current state itself. -/
theorem markRecomputeHandler_preserves_state (ic : ICFeedback) :
    (markRecomputeHandler ic).state = InlineCacheState.RECOMPUTE_HANDLER ∧
    saved_state (markRecomputeHandler ic) = ic.state ∧
    (ic.state ≠ InlineCacheState.RECOMPUTE_HANDLER →
      saved_state ic = ic.state) := by
  refine ⟨rfl, by simp [markRecomputeHandler, saved_state], ?_⟩
  intro h
  simp [saved_state, h]

/-- Witness for C7: a monomorphic IC marked for handler recomputation is in
`RECOMPUTE_HANDLER` with `MONOMORPHIC` saved, and before the mark its
`saved_state` is `MONOMORPHIC` itself. -/
theorem markRecomputeHandler_preserves_state_witness :
    (markRecomputeHandler ⟨InlineCacheState.UNINITIALIZED,
        InlineCacheState.MONOMORPHIC⟩).state =
      InlineCacheState.RECOMPUTE_HANDLER ∧
    saved_state (markRecomputeHandler ⟨InlineCacheState.UNINITIALIZED,
        InlineCacheState.MONOMORPHIC⟩) = InlineCacheState.MONOMORPHIC ∧
    saved_state ⟨InlineCacheState.UNINITIALIZED,
        InlineCacheState.MONOMORPHIC⟩ = InlineCacheState.MONOMORPHIC := by
  have h := markRecomputeHandler_preserves_state
    ⟨InlineCacheState.UNINITIALIZED, InlineCacheState.MONOMORPHIC⟩
  exact ⟨h.1, h.2.1, h.2.2 (by decide)⟩

/-- Claim C8: both keyed-store handler computations succeed exactly on the
four supported store modes asserted by their `DCHECK`s; every other
store-mode value violates the assertion (modelled as `none`), and under the
precondition the assertion always holds (the computation is `some`). -/
theorem keyedStore_storeMode_assertion (m : Map)
    (language_mode : LanguageMode)
    (find_transitioned : Map → List Map → Option Map)
    (receiver_maps : List Map) (store_mode : KeyedAccessStoreMode) :
    ((computeKeyedStoreMonomorphicHandler m language_mode store_mode).isSome ↔
      (store_mode = KeyedAccessStoreMode.STANDARD_STORE ∨
       store_mode = KeyedAccessStoreMode.STORE_AND_GROW_NO_TRANSITION ∨
       store_mode = KeyedAccessStoreMode.STORE_NO_TRANSITION_IGNORE_OUT_OF_BOUNDS ∨
       store_mode = KeyedAccessStoreMode.STORE_NO_TRANSITION_HANDLE_COW)) ∧
    ((computeKeyedStorePolymorphicHandlers find_transitioned receiver_maps
        store_mode language_mode).isSome ↔
      (store_mode = KeyedAccessStoreMode.STANDARD_STORE ∨
       store_mode = KeyedAccessStoreMode.STORE_AND_GROW_NO_TRANSITION ∨
       store_mode = KeyedAccessStoreMode.STORE_NO_TRANSITION_IGNORE_OUT_OF_BOUNDS ∨
       store_mode = KeyedAccessStoreMode.STORE_NO_TRANSITION_HANDLE_COW)) := by
  constructor <;>
    cases store_mode <;>
      simp [computeKeyedStoreMonomorphicHandler,
        computeKeyedStorePolymorphicHandlers, storeModeSupported]

/-- Claim C9: `IsCleared` reports a record as cleared exactly when IC use is
disabled by flag or the state is `UNINITIALIZED` or `PREMONOMORPHIC`; in
particular a `PREMONOMORPHIC` record is classified identically to an
`UNINITIALIZED` one. -/
theorem isCleared_iff (flag_use_ic : Bool) (state : InlineCacheState) :
    (isCleared flag_use_ic state = true ↔
      (flag_use_ic = false ∨ state = InlineCacheState.UNINITIALIZED ∨
        state = InlineCacheState.PREMONOMORPHIC)) ∧
    isCleared flag_use_ic InlineCacheState.PREMONOMORPHIC =
      isCleared flag_use_ic InlineCacheState.UNINITIALIZED := by
  constructor
  · simp [isCleared, Bool.or_eq_true, or_assoc]
  · cases flag_use_ic <;> decide

/-- Claim C10: `update_receiver_map` records a small-integer receiver under
the heap-number map and every heap object under its actual map; hence a Smi
receiver and a heap-number receiver are recorded identically. -/
theorem update_receiver_map_smi_as_heap_number (isolate : Isolate) (v : Int)
    (m : Map) :
    update_receiver_map isolate (Obj.smi v) = isolate.heap_number_map ∧
    update_receiver_map isolate (Obj.heapObject m) = m ∧
    update_receiver_map isolate (Obj.smi v) =
      update_receiver_map isolate (Obj.heapObject isolate.heap_number_map) :=
  ⟨rfl, rfl, rfl⟩

end V8IC
